import Mathlib

/-!
Shallow embedding of the surveillance tool-calling system:
the Neo4j graph query service (`gms_neo4j_mcp_server.py`), the REST
data service (`gms_rest_api_mcp_server.py`) and the LangGraph
orchestration agent (`langgraph_agent.py`).

Machine integers of the Python sources are modelled as `Nat`/`Int`;
query limits and traversal depths, declared as nonnegative Python
ints, are modelled as `Nat`.  The graph database is modelled as an
explicit finite store and the fixed Cypher templates of the server are
given their declarative meaning over that store.  HTTP and LLM calls
are modelled by explicit oracles passed as parameters.
-/

namespace Surveillance

/-- Python `needle in hay` on lists of characters: `needle` occurs as a
contiguous run of `hay` (the empty needle occurs in everything). -/
def subOf (needle : List Char) : List Char → Bool
  | [] => needle.isPrefixOf []
  | c :: rest => needle.isPrefixOf (c :: rest) || subOf needle rest

/-- Python `needle in hay` on strings. -/
def strContains (hay needle : String) : Bool :=
  subOf needle.data hay.data

/-- Python `s.lower()` (ASCII range, which covers every string this system
matches against). -/
def pyLower (s : String) : String :=
  ⟨s.data.map Char.toLower⟩

/-- Accumulator for `pySplit`: the current word is built in reverse. -/
def pySplitAux : List Char → List Char → List String
  | [], acc => if acc = [] then [] else [⟨acc.reverse⟩]
  | c :: rest, acc =>
      if c.isWhitespace then
        if acc = [] then pySplitAux rest []
        else ⟨acc.reverse⟩ :: pySplitAux rest []
      else pySplitAux rest (c :: acc)

/-- Python `s.split()`: split on whitespace runs, discarding empty pieces. -/
def pySplit (s : String) : List String :=
  pySplitAux s.data []

/-- The scan of `SurveillanceAgent._extract_trader_name`'s loop: walk the
word list; at the first word whose lowercasing is `"trader"` that still has
a following word, return that following word; otherwise return `""`. -/
def wordAfterTrader : List String → String
  | w :: next :: rest =>
      if pyLower w = "trader" then next else wordAfterTrader (next :: rest)
  | _ => ""

/-- `SurveillanceAgent._extract_trader_name` from `langgraph_agent.py`:
`"Bill Lyons"` when the lowercased query contains `"bill lyons"`; else, when
the raw query contains `"trader"`, the word following the first
(case-insensitively) matching `"trader"` token; else `""`. -/
def extractTraderName (query : String) : String :=
  if strContains (pyLower query) "bill lyons" then "Bill Lyons"
  else if strContains query "trader" then wordAfterTrader (pySplit query)
  else ""

/-- One argument value of a tool call (`str` or `int` JSON argument). -/
inductive ArgVal where
  | str (s : String)
  | int (n : Int)
  deriving DecidableEq, Repr

/-- A tool invocation issued through a `FastMCPClient`: tool name plus
keyword arguments in order. -/
structure ToolCall where
  name : String
  args : List (String × ArgVal)
  deriving DecidableEq, Repr

/-- The pipeline's shared state (`SurveillanceState` TypedDict).  The type
`α` abstracts the JSON payloads returned by tool calls. -/
structure AgentState (α : Type) where
  messages : List (String × String)
  query : String
  neo4j_data : List (String × α)
  api_data : List (String × α)
  analysis : String
  insights : List String
  deriving DecidableEq

/-- `SurveillanceAgent._fetch_neo4j_data`: inspect the lowercased query for
trigger substrings and issue graph tool calls accordingly; `answer` is the
oracle standing for `FastMCPClient.call_tool`.  Returns the updated state
together with the list of tool calls issued. -/
def fetchNeo4jData (answer : ToolCall → α) (state : AgentState α) :
    AgentState α × List ToolCall :=
  let query := pyLower state.query
  if strContains query "bill lyons" ||
      (strContains query "trader" || strContains query "alerts") then
    let trader_name := extractTraderName query
    if trader_name ≠ "" then
      let alertsCall : ToolCall :=
        ⟨"get_alerts_for_trader",
          [("trader_name", .str trader_name), ("limit", .int 20)]⟩
      let networkCall : ToolCall :=
        ⟨"get_trader_network",
          [("trader_name", .str trader_name), ("depth", .int 2)]⟩
      ({ state with
          neo4j_data :=
            [("alerts", answer alertsCall), ("network", answer networkCall)] },
        [alertsCall, networkCall])
    else (state, [])
  else if strContains query "spoofing" then
    let c : ToolCall :=
      ⟨"get_alerts_by_type",
        [("misconduct_type", .str "spoofing"), ("limit", .int 15)]⟩
    ({ state with neo4j_data := [("spoofing_alerts", answer c)] }, [c])
  else if strContains query "wash trading" then
    let c : ToolCall :=
      ⟨"get_alerts_by_type",
        [("misconduct_type", .str "wash_trading"), ("limit", .int 15)]⟩
    ({ state with neo4j_data := [("wash_trading_alerts", answer c)] }, [c])
  else (state, [])

/-! ### A small executable sort, standing for Cypher `ORDER BY` -/

/-- Insert `x` into `l`, keeping elements on which `le` holds first. -/
def ins (le : α → α → Bool) (x : α) : List α → List α
  | [] => [x]
  | y :: ys => if le x y then x :: y :: ys else y :: ins le x ys

/-- Insertion sort by the boolean relation `le`; any sort satisfies the
declarative `ORDER BY` contract, which leaves ties unspecified. -/
def insSort (le : α → α → Bool) : List α → List α
  | [] => []
  | x :: xs => ins le x (insSort le xs)

theorem mem_ins (le : α → α → Bool) (x a : α) (l : List α) :
    a ∈ ins le x l ↔ a = x ∨ a ∈ l := by
  induction l with
  | nil => simp [ins]
  | cons y ys ih =>
      simp only [ins]
      by_cases h : le x y
      · simp [h]
      · simp [h, ih]
        tauto

theorem perm_ins (le : α → α → Bool) (x : α) (l : List α) :
    List.Perm (ins le x l) (x :: l) := by
  induction l with
  | nil => simp [ins]
  | cons y ys ih =>
      simp only [ins]
      by_cases h : le x y
      · simp [h]
      · simpa [h] using ((ih.cons y).trans (List.Perm.swap x y ys))

theorem perm_insSort (le : α → α → Bool) (l : List α) :
    List.Perm (insSort le l) l := by
  induction l with
  | nil => simp [insSort]
  | cons x xs ih =>
      exact (perm_ins le x (insSort le xs)).trans (ih.cons x)

theorem length_insSort (le : α → α → Bool) (l : List α) :
    (insSort le l).length = l.length :=
  (perm_insSort le l).length_eq

theorem mem_insSort (le : α → α → Bool) (a : α) (l : List α) :
    a ∈ insSort le l ↔ a ∈ l :=
  (perm_insSort le l).mem_iff

theorem pairwise_ins (le : α → α → Bool)
    (total : ∀ a b, le a b = true ∨ le b a = true)
    (trans : ∀ a b c, le a b = true → le b c = true → le a c = true)
    (x : α) (l : List α) (h : l.Pairwise (fun a b => le a b = true)) :
    (ins le x l).Pairwise (fun a b => le a b = true) := by
  induction l with
  | nil => simp [ins]
  | cons y ys ih =>
      rcases List.pairwise_cons.mp h with ⟨hy, hys⟩
      simp only [ins]
      by_cases hxy : le x y
      · rw [if_pos hxy]
        refine List.pairwise_cons.mpr ⟨?_, h⟩
        intro z hz
        rcases List.mem_cons.mp hz with rfl | hz
        · exact hxy
        · exact trans x y z hxy (hy z hz)
      · rw [if_neg hxy]
        have hyx : le y x = true := (total x y).resolve_left hxy
        refine List.pairwise_cons.mpr ⟨?_, ih hys⟩
        intro z hz
        rcases (mem_ins le x z ys).mp hz with rfl | hz'
        · exact hyx
        · exact hy z hz'

theorem pairwise_insSort (le : α → α → Bool)
    (total : ∀ a b, le a b = true ∨ le b a = true)
    (trans : ∀ a b c, le a b = true → le b c = true → le a c = true)
    (l : List α) :
    (insSort le l).Pairwise (fun a b => le a b = true) := by
  induction l with
  | nil => simp [insSort]
  | cons x xs ih => exact pairwise_ins le total trans x (insSort le xs) ih

/-! ### The graph store

The Neo4j database behind `gms_neo4j_mcp_server.py` is modelled as an
explicit finite store of `Trader`, `Alert`, `Workflow` and `Order` nodes
with the `INVOLVED_IN`, `HAS_WORKFLOW`, `CONTAINS` and `TRADES_WITH`
relationships the server's Cypher templates traverse. -/

/-- An `Order` node's properties read by the server's queries. -/
structure Order where
  order_id : String
  asset_type : String
  venue_mic : String
  visible_usd_quantity : Int
  placed_time : String
  cancelled_time : String
  executed_time : String
  is_algo : Bool
  deriving DecidableEq, Repr

/-- A `Workflow` node's properties read by the server's queries. -/
structure Workflow where
  commentary : String
  disposition : String
  supervisor : String
  review_date : String
  deriving DecidableEq, Repr

/-- An `Alert` node; `created_date` is modelled as an ordinal so that
`ORDER BY a.created_date DESC` is ordering on `Nat`. -/
structure Alert where
  alert_id : String
  alert_type : String
  created_date : Nat
  status : String
  deriving DecidableEq, Repr

/-- One `TRADES_WITH` relationship: an identifier (relationships are
first-class and pairwise distinct in the store), its two endpoint trader
names, and its property map.  The relation is traversed undirected. -/
structure TradesWith where
  rel_id : Nat
  src : String
  dst : String
  props : List (String × String)
  deriving DecidableEq, Repr

/-- The graph store: node sets plus relationship sets.  `involved_in`
links a trader name to an alert id, `has_workflow` and `contains` link an
alert id to its workflow / orders. -/
structure Store where
  traders : List String
  alerts : List Alert
  involved_in : List (String × String)
  has_workflow : List (String × Workflow)
  contains : List (String × Order)
  trades_with : List TradesWith
  deriving Repr

/-- The order record collected by `get_alerts_for_trader`
(`collect(DISTINCT {order_id, asset_type, venue, quantity, placed_time,
cancelled_time})`); `none` is the all-null record produced when the
`OPTIONAL MATCH` finds no order. -/
structure OrderRec where
  order_id : String
  asset_type : String
  venue : String
  quantity : Int
  placed_time : String
  cancelled_time : String
  deriving DecidableEq, Repr

/-- Render an `Order` node into the map collected by
`get_alerts_for_trader`. -/
def renderOrder (o : Order) : OrderRec :=
  ⟨o.order_id, o.asset_type, o.venue_mic, o.visible_usd_quantity,
    o.placed_time, o.cancelled_time⟩

/-- The `collect(DISTINCT ...)` aggregate over the orders of alert `aid`:
distinct rendered order maps, or the single all-null map when the
`OPTIONAL MATCH (a)-[:CONTAINS]->(o:Order)` finds nothing. -/
def collectedOrders (store : Store) (aid : String) : List (Option OrderRec) :=
  let os := ((store.contains.filter (fun p => p.1 = aid)).map
    (fun p => some (renderOrder p.2))).dedup
  if os = [] then [none] else os

/-- The `(commentary, disposition)` pairs produced by
`OPTIONAL MATCH (a)-[:HAS_WORKFLOW]->(w:Workflow)`: one null pair when no
workflow is attached, otherwise the value-distinct attached pairs (Cypher
aggregation groups rows by these returned values). -/
def workflowPairs (store : Store) (aid : String) :
    List (Option String × Option String) :=
  let ws := ((store.has_workflow.filter (fun p => p.1 = aid)).map
    (fun p => (some p.2.commentary, some p.2.disposition))).dedup
  if ws = [] then [(none, none)] else ws

/-- One result row of `get_alerts_for_trader`. -/
structure AlertRow where
  alert_id : String
  alert_type : String
  created_date : Nat
  status : String
  commentary : Option String
  disposition : Option String
  orders : List (Option OrderRec)
  deriving DecidableEq, Repr

/-- `ORDER BY a.created_date DESC` on alert rows. -/
def alertRowDesc (r s : AlertRow) : Bool :=
  s.created_date ≤ r.created_date

/-- Payload returned by `get_alerts_for_trader`. -/
structure AlertsForTraderResult where
  trader_name : String
  total_alerts : Nat
  alerts : List AlertRow
  deriving DecidableEq, Repr

/-- `get_alerts_for_trader` of `gms_neo4j_mcp_server.py`: match
`(t:Trader {name: $trader_name})-[:INVOLVED_IN]->(a:Alert)`, optionally
join workflow and orders, order by creation date descending, cap at
`limit`, and return the records with their count. -/
def getAlertsForTrader (store : Store) (trader_name : String)
    (limit : Nat := 10) : AlertsForTraderResult :=
  let involved := store.alerts.filter (fun a =>
    decide (trader_name ∈ store.traders) &&
      decide ((trader_name, a.alert_id) ∈ store.involved_in))
  let rows := involved.flatMap (fun a =>
    (workflowPairs store a.alert_id).map (fun wd =>
      AlertRow.mk a.alert_id a.alert_type a.created_date a.status
        wd.1 wd.2 (collectedOrders store a.alert_id)))
  let records := (insSort alertRowDesc rows).take limit
  ⟨trader_name, records.length, records⟩

/-- The order record collected by `get_alert_workflow`, which additionally
returns `executed_time` and `is_algo`. -/
structure WfOrderRec where
  order_id : String
  asset_type : String
  venue : String
  quantity : Int
  placed_time : String
  cancelled_time : String
  executed_time : String
  is_algo : Bool
  deriving DecidableEq, Repr

/-- Render an `Order` node into the map collected by `get_alert_workflow`. -/
def renderWfOrder (o : Order) : WfOrderRec :=
  ⟨o.order_id, o.asset_type, o.venue_mic, o.visible_usd_quantity,
    o.placed_time, o.cancelled_time, o.executed_time, o.is_algo⟩

/-- `collect(DISTINCT {...})` over the orders of alert `aid` for
`get_alert_workflow` (the all-null map when no order is attached). -/
def collectedWfOrders (store : Store) (aid : String) :
    List (Option WfOrderRec) :=
  let os := ((store.contains.filter (fun p => p.1 = aid)).map
    (fun p => some (renderWfOrder p.2))).dedup
  if os = [] then [none] else os

/-- `collect(DISTINCT t.name)` over `(a)<-[:INVOLVED_IN]-(t:Trader)`:
Cypher's `collect` ignores the null produced by an empty
`OPTIONAL MATCH`, so no involved trader yields `[]`. -/
def collectedTraders (store : Store) (aid : String) : List String :=
  ((store.involved_in.filter (fun p =>
    decide (p.2 = aid) && decide (p.1 ∈ store.traders))).map
      (fun p => p.1)).dedup

/-- The workflow field quadruple `(commentary, disposition, supervisor,
review_date)` rows of `get_alert_workflow`'s `OPTIONAL MATCH`: one all-null
row when no workflow is attached, else the value-distinct attached rows. -/
def workflowQuads (store : Store) (aid : String) :
    List (Option String × Option String × Option String × Option String) :=
  let ws := ((store.has_workflow.filter (fun p => p.1 = aid)).map
    (fun p => (some p.2.commentary, some p.2.disposition,
      some p.2.supervisor, some p.2.review_date))).dedup
  if ws = [] then [(none, none, none, none)] else ws

/-- One result row of `get_alert_workflow`. -/
structure WorkflowRow where
  alert_id : String
  alert_type : String
  created_date : Nat
  status : String
  commentary : Option String
  disposition : Option String
  supervisor : Option String
  review_date : Option String
  traders : List String
  orders : List (Option WfOrderRec)
  deriving DecidableEq, Repr

/-- Result of `get_alert_workflow`: the single matched record, or the
structured not-found payload `{"error": "Alert <id> not found"}`. -/
inductive AlertWorkflowResult where
  | record (row : WorkflowRow)
  | error (msg : String)
  deriving DecidableEq, Repr

/-- `get_alert_workflow` of `gms_neo4j_mcp_server.py`: match
`(a:Alert {alert_id: $alert_id})` with its optional workflow, orders and
involved traders; `result.single()` yields the first record or `None`, and
a `None` record becomes the `{"error": "Alert <id> not found"}` payload. -/
def getAlertWorkflow (store : Store) (alert_id : String) :
    AlertWorkflowResult :=
  let matching := store.alerts.filter (fun a => a.alert_id = alert_id)
  let rows := matching.flatMap (fun a =>
    (workflowQuads store a.alert_id).map (fun q =>
      WorkflowRow.mk a.alert_id a.alert_type a.created_date a.status
        q.1 q.2.1 q.2.2.1 q.2.2.2
        (collectedTraders store a.alert_id)
        (collectedWfOrders store a.alert_id)))
  match rows.head? with
  | some r => .record r
  | none => .error ("Alert " ++ alert_id ++ " not found")

/-! ### `get_trader_network`: undirected variable-length traversal -/

/-- Traversing relationship `r` undirected from node `x`: the opposite
endpoint, or `none` when `r` is not incident to `x`. -/
def otherEnd (r : TradesWith) (x : String) : Option String :=
  if r.src = x then some r.dst
  else if r.dst = x then some r.src
  else none

/-- One expansion step of the variable-length pattern from `x`: every
relationship incident to `x` whose id is not already on the path (Cypher
never repeats a relationship within one matched path), paired with the
node it leads to. -/
def stepRels (rels : List TradesWith) (x : String) (used : List Nat) :
    List (TradesWith × String) :=
  rels.filterMap (fun r =>
    if r.rel_id ∈ used then none
    else match otherEnd r x with
      | some y => some (r, y)
      | none => none)

/-- All paths of the pattern `-[:TRADES_WITH*1..depth]-` starting at `x`
with relationships `used` already traversed: each path is its relationship
list (in traversal order) together with its final node. -/
def pathsUpTo (rels : List TradesWith) (x : String) (used : List Nat) :
    Nat → List (List TradesWith × String)
  | 0 => []
  | d + 1 =>
      (stepRels rels x used).flatMap (fun ry =>
        ([ry.1], ry.2) ::
          (pathsUpTo rels ry.2 (ry.1.rel_id :: used) d).map
            (fun pz => (ry.1 :: pz.1, pz.2)))

/-- One result row of `get_trader_network`: connected trader name, hop
count, and the `{type, properties}` rendering of each relationship along
the path (the relationship identity is not part of the rendering). -/
structure NetworkRow where
  connected_trader : String
  degrees_of_separation : Nat
  relationships : List (String × List (String × String))
  deriving DecidableEq, Repr

/-- Lexicographic comparison of character lists. -/
def charsLe : List Char → List Char → Bool
  | [], _ => true
  | _ :: _, [] => false
  | c :: cs, d :: ds => if c = d then charsLe cs ds else decide (c < d)

/-- Lexicographic string comparison (the order `ORDER BY` applies to
string values). -/
def strLe (a b : String) : Bool :=
  charsLe a.data b.data

/-- `ORDER BY degrees_of_separation, connected_trader` on network rows. -/
def networkRowLe (r s : NetworkRow) : Bool :=
  r.degrees_of_separation < s.degrees_of_separation ||
    (r.degrees_of_separation = s.degrees_of_separation &&
      strLe r.connected_trader s.connected_trader)

/-- Payload returned by `get_trader_network`. -/
structure TraderNetworkResult where
  central_trader : String
  network_depth : Nat
  connected_traders : List NetworkRow
  deriving DecidableEq, Repr

/-- `get_trader_network` of `gms_neo4j_mcp_server.py`: match
`path = (t:Trader {name: $trader_name})-[:TRADES_WITH*1..$depth]-(connected:Trader)`,
return `DISTINCT` rows of `(connected.name, length(path),
[{type, properties} per relationship])`, ordered by hop count then name.
`RETURN DISTINCT` deduplicates whole rows, not trader names. -/
def getTraderNetwork (store : Store) (trader_name : String)
    (depth : Nat := 2) : TraderNetworkResult :=
  let pths :=
    if trader_name ∈ store.traders then
      pathsUpTo store.trades_with trader_name [] depth
    else []
  let rows := pths.filterMap (fun pz =>
    if pz.2 ∈ store.traders then
      some (NetworkRow.mk pz.2 pz.1.length
        (pz.1.map (fun r => ("TRADES_WITH", r.props))))
    else none)
  ⟨trader_name, depth, insSort networkRowLe rows.dedup⟩

/-! ### The query texts and bound parameters sent to the store

This second view of `gms_neo4j_mcp_server.py` captures what each
operation hands to `session.run`: the Cypher text and the keyword
parameter map.  Literal braces of the Cypher templates are written with
character escapes. -/

/-- A value bound as a Cypher query parameter (string, int, or the float
`min_amount`, modelled as a rational). -/
inductive CyVal where
  | str (s : String)
  | int (n : Int)
  | num (q : ℚ)
  deriving DecidableEq, Repr

/-- What one operation hands to `session.run`: query text plus bound
parameters in keyword order. -/
abbrev CypherCall := String × List (String × CyVal)

/-- The Cypher template of `get_alerts_for_trader`. -/
def alertsForTraderQuery : String :=
  "\n        MATCH (t:Trader \x7bname: $trader_name\x7d)-[:INVOLVED_IN]->(a:Alert)\n        OPTIONAL MATCH (a)-[:HAS_WORKFLOW]->(w:Workflow)\n        OPTIONAL MATCH (a)-[:CONTAINS]->(o:Order)\n        RETURN a.alert_id as alert_id,\n               a.alert_type as alert_type,\n               a.created_date as created_date,\n               a.status as status,\n               w.commentary as commentary,\n               w.disposition as disposition,\n               collect(DISTINCT \x7b\n                   order_id: o.order_id,\n                   asset_type: o.asset_type,\n                   venue: o.venue_mic,\n                   quantity: o.visible_usd_quantity,\n                   placed_time: o.placed_time,\n                   cancelled_time: o.cancelled_time\n               \x7d) as orders\n        ORDER BY a.created_date DESC\n        LIMIT $limit\n        "

/-- `session.run` arguments of `get_alerts_for_trader`. -/
def alertsForTraderCall (trader_name : String) (limit : Nat) : CypherCall :=
  (alertsForTraderQuery,
    [("trader_name", .str trader_name), ("limit", .int limit)])

/-- The Cypher template of `get_alert_workflow`. -/
def alertWorkflowQuery : String :=
  "\n        MATCH (a:Alert \x7balert_id: $alert_id\x7d)\n        OPTIONAL MATCH (a)-[:HAS_WORKFLOW]->(w:Workflow)\n        OPTIONAL MATCH (a)-[:CONTAINS]->(o:Order)\n        OPTIONAL MATCH (a)<-[:INVOLVED_IN]-(t:Trader)\n        RETURN a.alert_id as alert_id,\n               a.alert_type as alert_type,\n               a.created_date as created_date,\n               a.status as status,\n               w.commentary as commentary,\n               w.disposition as disposition,\n               w.supervisor as supervisor,\n               w.review_date as review_date,\n               collect(DISTINCT t.name) as traders,\n               collect(DISTINCT \x7b\n                   order_id: o.order_id,\n                   asset_type: o.asset_type,\n                   venue: o.venue_mic,\n                   quantity: o.visible_usd_quantity,\n                   placed_time: o.placed_time,\n                   cancelled_time: o.cancelled_time,\n                   executed_time: o.executed_time,\n                   is_algo: o.is_algo\n               \x7d) as orders\n        "

/-- `session.run` arguments of `get_alert_workflow`. -/
def alertWorkflowCall (alert_id : String) : CypherCall :=
  (alertWorkflowQuery, [("alert_id", .str alert_id)])

/-- The Cypher template of `get_alerts_by_type`. -/
def alertsByTypeQuery : String :=
  "\n        MATCH (a:Alert \x7balert_type: $misconduct_type\x7d)\n        OPTIONAL MATCH (a)-[:HAS_WORKFLOW]->(w:Workflow)\n        OPTIONAL MATCH (a)<-[:INVOLVED_IN]-(t:Trader)\n        RETURN a.alert_id as alert_id,\n               a.created_date as created_date,\n               a.status as status,\n               w.commentary as commentary,\n               w.disposition as disposition,\n               collect(DISTINCT t.name) as traders\n        ORDER BY a.created_date DESC\n        LIMIT $limit\n        "

/-- `session.run` arguments of `get_alerts_by_type`. -/
def alertsByTypeCall (misconduct_type : String) (limit : Nat) : CypherCall :=
  (alertsByTypeQuery,
    [("misconduct_type", .str misconduct_type), ("limit", .int limit)])

/-- The Cypher template of `get_trader_network`.  The traversal bound is
the parameter reference `$depth` inside the fixed text; the text itself
never changes with the supplied depth. -/
def traderNetworkQuery : String :=
  "\n        MATCH path = (t:Trader \x7bname: $trader_name\x7d)-[:TRADES_WITH*1..$depth]-(connected:Trader)\n        RETURN DISTINCT connected.name as connected_trader,\n               length(path) as degrees_of_separation,\n               [rel in relationships(path) | \x7b\n                   type: type(rel),\n                   properties: properties(rel)\n               \x7d] as relationships\n        ORDER BY degrees_of_separation, connected_trader\n        "

/-- `session.run` arguments of `get_trader_network`. -/
def traderNetworkCall (trader_name : String) (depth : Nat) : CypherCall :=
  (traderNetworkQuery,
    [("trader_name", .str trader_name), ("depth", .int depth)])

/-- The optional criteria of `search_alerts_by_criteria`. -/
structure SearchCriteria where
  start_date : Option String
  end_date : Option String
  venue : Option String
  asset_type : Option String
  min_amount : Option ℚ
  deriving DecidableEq, Repr

/-- Python truthiness of an optional string (`None` and `""` are falsy). -/
def optStrTruthy : Option String → Bool
  | some s => s ≠ ""
  | none => false

/-- Python truthiness of the optional `min_amount` (`None` and `0.0` are
falsy). -/
def optNumTruthy : Option ℚ → Bool
  | some q => q ≠ 0
  | none => false

/-- The `where_clauses` list built by `search_alerts_by_criteria`: one
fixed fragment per truthy criterion, in source order.  No supplied value
enters a fragment — values are referenced by `$` parameters. -/
def searchWhereClauses (c : SearchCriteria) : List String :=
  (if optStrTruthy c.start_date
    then ["a.created_date >= date($start_date)"] else []) ++
  (if optStrTruthy c.end_date
    then ["a.created_date <= date($end_date)"] else []) ++
  (if optStrTruthy c.venue
    then ["ANY(o IN orders WHERE o.venue_mic = $venue)"] else []) ++
  (if optStrTruthy c.asset_type
    then ["ANY(o IN orders WHERE o.asset_type = $asset_type)"] else []) ++
  (if optNumTruthy c.min_amount
    then ["ANY(o IN orders WHERE o.visible_usd_quantity >= $min_amount)"]
    else [])

/-- The `params` dict of `search_alerts_by_criteria`: `limit` first, then
one entry per truthy criterion, in source order. -/
def searchParams (c : SearchCriteria) (limit : Nat) :
    List (String × CyVal) :=
  [("limit", .int limit)] ++
  (match c.start_date with
    | some s => if s ≠ "" then [("start_date", CyVal.str s)] else []
    | none => []) ++
  (match c.end_date with
    | some s => if s ≠ "" then [("end_date", CyVal.str s)] else []
    | none => []) ++
  (match c.venue with
    | some s => if s ≠ "" then [("venue", CyVal.str s)] else []
    | none => []) ++
  (match c.asset_type with
    | some s => if s ≠ "" then [("asset_type", CyVal.str s)] else []
    | none => []) ++
  (match c.min_amount with
    | some q => if q ≠ 0 then [("min_amount", CyVal.num q)] else []
    | none => [])

/-- The `WHERE` fragment interpolated into the search query's f-string:
empty when no criterion is truthy. -/
def searchWhereClause (c : SearchCriteria) : String :=
  if searchWhereClauses c = [] then ""
  else "WHERE " ++ String.intercalate " AND " (searchWhereClauses c)

/-- The f-string query text of `search_alerts_by_criteria`: fixed text
around the `where_clause` fragment. -/
def searchQuery (c : SearchCriteria) : String :=
  "\n        MATCH (a:Alert)\n        OPTIONAL MATCH (a)-[:CONTAINS]->(o:Order)\n        WITH a, collect(o) as orders\n        " ++
  searchWhereClause c ++
  "\n        OPTIONAL MATCH (a)-[:HAS_WORKFLOW]->(w:Workflow)\n        OPTIONAL MATCH (a)<-[:INVOLVED_IN]-(t:Trader)\n        RETURN a.alert_id as alert_id,\n               a.alert_type as alert_type,\n               a.created_date as created_date,\n               a.status as status,\n               w.commentary as commentary,\n               w.disposition as disposition,\n               collect(DISTINCT t.name) as traders\n        ORDER BY a.created_date DESC\n        LIMIT $limit\n        "

/-- `session.run` arguments of `search_alerts_by_criteria`. -/
def searchCall (c : SearchCriteria) (limit : Nat) : CypherCall :=
  (searchQuery c, searchParams c limit)

/-- Two criteria records have the same shape when each optional criterion
is truthy in one iff it is truthy in the other. -/
def sameShape (c c' : SearchCriteria) : Prop :=
  optStrTruthy c.start_date = optStrTruthy c'.start_date ∧
  optStrTruthy c.end_date = optStrTruthy c'.end_date ∧
  optStrTruthy c.venue = optStrTruthy c'.venue ∧
  optStrTruthy c.asset_type = optStrTruthy c'.asset_type ∧
  optNumTruthy c.min_amount = optNumTruthy c'.min_amount

/-! ### JSON values, the REST data service, and the HTTP RPC client -/

/-- A JSON value (numbers restricted to integers; no operation of this
system computes on numeric payloads). -/
inductive Json where
  | null
  | bool (b : Bool)
  | int (n : Int)
  | str (s : String)
  | arr (elems : List Json)
  | obj (fields : List (String × Json))

/-- Does a payload carry an `error` field (the structured-error shape)? -/
def hasErrorField : Json → Bool
  | .obj fields => fields.any (fun p => p.1 = "error")
  | _ => false

/-- `get_real_time_alerts` of `gms_rest_api_mcp_server.py`, as a function
of the upstream HTTP response: the JSON body on status 200, otherwise
`{"error": "API error: <status>"}`. -/
def getRealTimeAlertsResult (status : Nat) (body : Json) : Json :=
  if status = 200 then body
  else .obj [("error", .str ("API error: " ++ toString status))]

/-- `get_trader_profile` of `gms_rest_api_mcp_server.py`: the JSON body on
status 200, otherwise `{"error": "Trader not found: <trader_id>"}`. -/
def getTraderProfileResult (trader_id : String) (status : Nat)
    (body : Json) : Json :=
  if status = 200 then body
  else .obj [("error", .str ("Trader not found: " ++ trader_id))]

/-- `submit_alert_feedback` of `gms_rest_api_mcp_server.py`: the fixed
payload `{"success": true, "message": "Feedback submitted"}` on status
200 (the body is discarded), otherwise
`{"error": "Failed to submit feedback: <status>"}`. -/
def submitAlertFeedbackResult (status : Nat) (_body : Json) : Json :=
  if status = 200 then
    .obj [("success", .bool true), ("message", .str "Feedback submitted")]
  else .obj [("error", .str ("Failed to submit feedback: " ++ toString status))]

/-- `get_market_data` of `gms_rest_api_mcp_server.py`: the JSON body on
status 200, otherwise `{"error": "Market data error: <status>"}`. -/
def getMarketDataResult (status : Nat) (body : Json) : Json :=
  if status = 200 then body
  else .obj [("error", .str ("Market data error: " ++ toString status))]

/-- Outcome of the HTTP POST issued by `FastMCPClient.call_tool`: either a
transport-level exception with its message, or a response with a status
and the `result` field of its parsed JSON body (the JSON-RPC envelope
carries `result` as a sequence when present). -/
inductive HttpOutcome where
  | exn (msg : String)
  | resp (status : Nat) (result : Option (List Json))

/-- `FastMCPClient.call_tool` response handling from `langgraph_agent.py`:
an exception maps to `{"error": "Connection error: <msg>"}`, a non-200
status to `{"error": "HTTP error: <status>"}`, and a 200 response yields
the first element of a truthy `result` sequence, else `{}`. -/
def callToolResult : HttpOutcome → Json
  | .exn e => .obj [("error", .str ("Connection error: " ++ e))]
  | .resp status r =>
      if status = 200 then
        match r with
        | some (x :: _) => x
        | _ => .obj []
      else .obj [("error", .str ("HTTP error: " ++ toString status))]

/-! ### The orchestration pipeline (`SurveillanceAgent`) -/

/-- Python `s.strip()`. -/
def pyStrip (s : String) : String :=
  ⟨((s.data.dropWhile Char.isWhitespace).reverse.dropWhile
    Char.isWhitespace).reverse⟩

/-- Python `s.split(sep)` for a one-character separator (keeps empty
pieces). -/
def splitOnChar (sep : Char) : List Char → List (List Char)
  | [] => [[]]
  | c :: rest =>
      if c = sep then [] :: splitOnChar sep rest
      else
        match splitOnChar sep rest with
        | h :: t => (c :: h) :: t
        | [] => [[c]]

/-- The insight post-processing of `_generate_insights`: split the model
text on newlines, keep the stripped form of each line whose strip is
non-empty and whose first three raw characters contain a digit. -/
def parseInsights (text : String) : List String :=
  (splitOnChar '\n' text.data).filterMap (fun line =>
    let stripped := pyStrip ⟨line⟩
    if stripped ≠ "" && (line.take 3).any Char.isDigit then some stripped
    else none)

/-- The system prompt of `_parse_query`. -/
def parseSystemPrompt : String :=
  "\n        You are a surveillance query parser. Extract the following from user queries:\n        1. Trader names mentioned\n        2. Alert types of interest\n        3. Time periods\n        4. Specific analysis requested\n        \n        Respond in JSON format with extracted entities.\n        "

/-- The analysis prompt of `_analyze_data`; `dump` stands for
`json.dumps(_, indent=2)`. -/
def analysisPrompt (dump : List (String × α) → String)
    (neo4j_data api_data : List (String × α)) : String :=
  "\n        Analyze the following surveillance data for patterns and insights:\n        \n        Historical Data from Neo4j:\n        " ++
  dump neo4j_data ++
  "\n        \n        Real-time Data from API:\n        " ++
  dump api_data ++
  "\n        \n        Provide a comprehensive analysis focusing on:\n        1. Alert patterns and trends\n        2. Risk assessment for traders involved\n        3. Notable findings or red flags\n        4. Behavioral patterns\n        5. Recommendations for surveillance team\n        "

/-- The insights prompt of `_generate_insights`. -/
def insightsPrompt (analysis : String) : String :=
  "\n        Based on this surveillance analysis:\n        " ++
  analysis ++
  "\n        \n        Generate specific, actionable insights for the surveillance team:\n        1. Immediate risks requiring attention\n        2. Patterns that suggest coordinated activity\n        3. Recommended investigative actions\n        4. Priority levels for different alerts\n        5. Potential regulatory implications\n        \n        Format as a numbered list of clear, actionable insights.\n        "

/-- The state `process_query` builds before invoking the graph. -/
def initialState (query : String) : AgentState α :=
  ⟨[], query, [], [], "", []⟩

/-- `_parse_query`: one LLM call (`llm` maps system and human content to
the model text, or raises); the raw model output is appended to the
message log. -/
def parseQueryStage (llm : String → String → Except String String)
    (st : AgentState α) : Except String (AgentState α) :=
  (llm parseSystemPrompt ("Parse this query: " ++ st.query)).map
    (fun response =>
      { st with messages :=
          st.messages ++ [("system", "Parsed query: " ++ response)] })

/-- `_fetch_api_data`: always fetch real-time alerts; additionally fetch
the Bill Lyons profile when the lowercased query mentions him. -/
def fetchApiData (answer : ToolCall → α) (st : AgentState α) :
    AgentState α :=
  let real_time := answer
    ⟨"get_real_time_alerts", [("status", .str "active"), ("limit", .int 10)]⟩
  let st := { st with api_data := [("real_time_alerts", real_time)] }
  if strContains (pyLower st.query) "bill lyons" then
    { st with api_data := st.api_data ++
        [("trader_profile",
          answer ⟨"get_trader_profile", [("trader_id", .str "Bill Lyons")]⟩)] }
  else st

/-- `_analyze_data`: one LLM call over the combined fetched data; stores
the raw model text as `analysis`. -/
def analyzeDataStage (llm : String → String → Except String String)
    (dump : List (String × α) → String) (st : AgentState α) :
    Except String (AgentState α) :=
  (llm "You are an expert market surveillance analyst. Provide detailed analysis of trading data and alert patterns."
      (analysisPrompt dump st.neo4j_data st.api_data)).map
    (fun response => { st with analysis := response })

/-- `_generate_insights`: one LLM call over the analysis; stores the
heuristically parsed numbered lines as `insights`. -/
def generateInsightsStage (llm : String → String → Except String String)
    (st : AgentState α) : Except String (AgentState α) :=
  (llm "Generate clear, actionable surveillance insights that help the compliance team prioritize their work."
      (insightsPrompt st.analysis)).map
    (fun response => { st with insights := parseInsights response })

/-- The compiled workflow `parse_query → {fetch_neo4j_data,
fetch_api_data} → analyze_data → generate_insights → END`: a fault from
any stage aborts the remaining stages and propagates. -/
def runGraph (llm : String → String → Except String String)
    (answer : ToolCall → α) (dump : List (String × α) → String)
    (query : String) : Except String (AgentState α) := do
  let s1 ← parseQueryStage llm (initialState query)
  let s2 := (fetchNeo4jData answer s1).1
  let s3 := fetchApiData answer s2
  let s4 ← analyzeDataStage llm dump s3
  generateInsightsStage llm s4

/-- A value of the dictionary `process_query` returns on failure. -/
inductive PyVal where
  | s (v : String)
  | list (v : List String)
  deriving DecidableEq, Repr

/-- What `process_query` returns: the final pipeline state, or the
caught-exception dictionary with its fields in construction order. -/
inductive ProcessResult (α : Type) where
  | ok (st : AgentState α)
  | err (fields : List (String × PyVal))
  deriving DecidableEq

/-- `SurveillanceAgent.process_query`: invoke the graph on the initial
state; on an uncaught fault return the structured error dictionary. -/
def processQuery (llm : String → String → Except String String)
    (answer : ToolCall → α) (dump : List (String × α) → String)
    (query : String) : ProcessResult α :=
  match runGraph llm answer dump query with
  | .ok st => .ok st
  | .error e =>
      .err [("error", .s ("Error processing query: " ++ e)),
            ("query", .s query),
            ("insights", .list ["Failed to process query: " ++ e])]

/-! ### Specification-side double of the trader-name extractor

`extractTraderNameSpec` restates the extractor in the spec's vocabulary
(index of the first matching token), to be compared with the source
translation `extractTraderName`. -/

/-- Index of the first token whose lowercasing is `"trader"`. -/
def idxOfTrader : List String → Option Nat
  | [] => none
  | w :: rest =>
      if pyLower w = "trader" then some 0
      else (idxOfTrader rest).map (· + 1)

/-- The extractor as the amended claim words it: `"Bill Lyons"` on a
lowercased `"bill lyons"` mention; else, when the query contains
`"trader"`, the token after the first token whose lowercasing equals
`"trader"` (the empty string when there is no such token or it is last);
else the empty string. -/
def extractTraderNameSpec (query : String) : String :=
  if strContains (pyLower query) "bill lyons" then "Bill Lyons"
  else if strContains query "trader" then
    let ws := pySplit query
    match idxOfTrader ws with
    | some i => (ws.drop (i + 1)).headD ""
    | none => ""
  else ""

theorem wordAfterTrader_eq_spec (ws : List String) :
    wordAfterTrader ws =
      (match idxOfTrader ws with
        | some i => (ws.drop (i + 1)).headD ""
        | none => "") := by
  induction ws with
  | nil => rfl
  | cons w rest ih =>
      cases rest with
      | nil =>
          by_cases h : pyLower w = "trader" <;>
            simp [wordAfterTrader, idxOfTrader, h]
      | cons next rest' =>
          by_cases h : pyLower w = "trader"
          · simp [wordAfterTrader, idxOfTrader, h]
          · have hw : wordAfterTrader (w :: next :: rest') =
                wordAfterTrader (next :: rest') := by
              simp [wordAfterTrader, h]
            have hi : idxOfTrader (w :: next :: rest') =
                (idxOfTrader (next :: rest')).map (· + 1) := by
              simp [idxOfTrader, h]
            rw [hw, ih, hi]
            cases hidx : idxOfTrader (next :: rest') with
            | none => simp
            | some i => simp [List.drop_succ_cons]

/-! ### Claim C1: the spoofing end-to-end scenario -/

/-- C1, counterexample.  On the query "Show me all spoofing alerts from
last week" the graph-fetch stage does NOT issue the single
`get_alerts_by_type(misconduct_type="spoofing", limit=15)` call the claim
describes, and stores nothing under `spoofing_alerts`: the lowercased
query contains `"alerts"`, so the trader/alerts branch shadows the
spoofing branch. -/
theorem C1_spoofing_scenario_counterexample :
    (fetchNeo4jData (fun _ => ())
        (initialState "Show me all spoofing alerts from last week")).2 ≠
      [⟨"get_alerts_by_type",
        [("misconduct_type", .str "spoofing"), ("limit", .int 15)]⟩] ∧
    ((fetchNeo4jData (fun _ => ())
        (initialState "Show me all spoofing alerts from last week")).1.neo4j_data.map
          Prod.fst) ≠ ["spoofing_alerts"] := by
  constructor <;> decide

/-- C1, amended: on the query "Show me all spoofing alerts from last
week" the graph-fetch stage takes the trader/alerts branch (the lowercased
query contains `"alerts"`), the trader-name extractor returns the empty
string, and the stage therefore issues no graph tool calls and leaves
`neo4j_data` empty. -/
theorem C1_spoofing_scenario_amended (α : Type) (answer : ToolCall → α) :
    fetchNeo4jData answer
        (initialState "Show me all spoofing alerts from last week") =
      (initialState "Show me all spoofing alerts from last week", []) ∧
    strContains (pyLower "Show me all spoofing alerts from last week")
      "alerts" = true ∧
    extractTraderName
      (pyLower "Show me all spoofing alerts from last week") = "" := by
  refine ⟨rfl, by decide, by decide⟩

/-! ### Claim C10: the trader-name extractor and the empty-name branch -/

/-- C10, counterexample.  The extractor's token matching is
case-insensitive, not exact: on `"mytrader TRADER Bob"` no token is
exactly `"trader"` (so the claim demands `""`), yet the code returns
`"Bob"`.  And an empty extractor result does not imply an idle graph-fetch
stage: on `"spoofing"` the extractor returns `""` while the stage issues a
tool call and writes `neo4j_data`. -/
theorem C10_extractor_counterexample :
    extractTraderName "mytrader TRADER Bob" = "Bob" ∧
    extractTraderName "spoofing" = "" ∧
    (fetchNeo4jData (fun _ => ()) (initialState "spoofing")).2 ≠ [] ∧
    (fetchNeo4jData (fun _ => ())
      (initialState "spoofing")).1.neo4j_data.map Prod.fst =
        ["spoofing_alerts"] := by
  refine ⟨by decide, by decide, by decide, by decide⟩

/-- C10, amended: the extractor returns `"Bill Lyons"` when the lowercased
query contains `"bill lyons"`; otherwise, when the query contains
`"trader"`, the token following the first token whose LOWERCASING equals
`"trader"` (empty if none, or if that token is last); otherwise the empty
string — and whenever the graph-fetch stage's trader/alerts branch is
taken with an empty extracted name, the stage issues no tool calls and
leaves the state unchanged. -/
theorem C10_extractor_amended :
    (∀ q : String, extractTraderName q = extractTraderNameSpec q) ∧
    (∀ (α : Type) (answer : ToolCall → α) (st : AgentState α),
      (strContains (pyLower st.query) "bill lyons" ||
        (strContains (pyLower st.query) "trader" ||
          strContains (pyLower st.query) "alerts")) = true →
      extractTraderName (pyLower st.query) = "" →
      fetchNeo4jData answer st = (st, [])) := by
  constructor
  · intro q
    unfold extractTraderName extractTraderNameSpec
    by_cases h1 : strContains (pyLower q) "bill lyons" = true
    · simp [h1]
    · simp only [Bool.not_eq_true] at h1
      by_cases h2 : strContains q "trader" = true
      · simp only [h1, h2, Bool.false_eq_true, if_false, if_true]
        exact wordAfterTrader_eq_spec (pySplit q)
      · simp only [Bool.not_eq_true] at h2
        simp [h1, h2]
  · intro α answer st hbranch hempty
    unfold fetchNeo4jData
    simp only [hbranch, if_true, hempty]
    simp

/-- C10, witness: the amended theorem applied at `"find trader Joe"` (the
extractor agrees with its specification) and at `"alerts overview"` (the
trader/alerts branch with an empty name issues no calls). -/
theorem C10_extractor_witness :
    extractTraderName "find trader Joe" =
      extractTraderNameSpec "find trader Joe" ∧
    fetchNeo4jData (fun _ => ()) (initialState "alerts overview") =
      (initialState "alerts overview", []) :=
  ⟨C10_extractor_amended.1 "find trader Joe",
    C10_extractor_amended.2 Unit (fun _ => ())
      (initialState "alerts overview") (by decide) (by decide)⟩

/-! ### Claim C2: bound parameters versus interpolation -/

set_option maxRecDepth 4096 in
/-- C2, counterexample.  The claim's exception clause is false: the
traversal-depth bound of `get_trader_network` is NOT interpolated into the
query text.  The text is the same for depth 5 and depth 2, contains no
rendering of `5`, and the depth travels in the bound-parameter list. -/
theorem C2_depth_binding_counterexample :
    (traderNetworkCall "X" 5).1 = (traderNetworkCall "X" 2).1 ∧
    strContains (traderNetworkCall "X" 5).1 "5" = false ∧
    ("depth", CyVal.int 5) ∈ (traderNetworkCall "X" 5).2 := by
  refine ⟨rfl, by decide, by decide⟩

/-- C2, amended: in every Graph Query Service operation, ALL externally
supplied parameters — the traversal depth of `trader_network` included —
are passed as bound query parameters; no operation's query text depends on
any supplied value (the text of `search_alerts_by_criteria` depends only
on which optional criteria are truthy). -/
theorem C2_bound_parameters_amended :
    (∀ n l n' l',
      (alertsForTraderCall n l).1 = (alertsForTraderCall n' l').1) ∧
    (∀ n l, ("trader_name", CyVal.str n) ∈ (alertsForTraderCall n l).2 ∧
      ("limit", CyVal.int l) ∈ (alertsForTraderCall n l).2) ∧
    (∀ i i', (alertWorkflowCall i).1 = (alertWorkflowCall i').1) ∧
    (∀ i, ("alert_id", CyVal.str i) ∈ (alertWorkflowCall i).2) ∧
    (∀ t l t' l',
      (alertsByTypeCall t l).1 = (alertsByTypeCall t' l').1) ∧
    (∀ t l, ("misconduct_type", CyVal.str t) ∈ (alertsByTypeCall t l).2 ∧
      ("limit", CyVal.int l) ∈ (alertsByTypeCall t l).2) ∧
    (∀ n d n' d',
      (traderNetworkCall n d).1 = (traderNetworkCall n' d').1) ∧
    (∀ n d, ("trader_name", CyVal.str n) ∈ (traderNetworkCall n d).2 ∧
      ("depth", CyVal.int d) ∈ (traderNetworkCall n d).2) ∧
    (∀ c c' l l', sameShape c c' →
      (searchCall c l).1 = (searchCall c' l').1) ∧
    (∀ c l, ("limit", CyVal.int l) ∈ (searchCall c l).2) ∧
    (∀ c l s, c.start_date = some s → s ≠ "" →
      ("start_date", CyVal.str s) ∈ (searchCall c l).2) ∧
    (∀ c l s, c.end_date = some s → s ≠ "" →
      ("end_date", CyVal.str s) ∈ (searchCall c l).2) ∧
    (∀ c l s, c.venue = some s → s ≠ "" →
      ("venue", CyVal.str s) ∈ (searchCall c l).2) ∧
    (∀ c l s, c.asset_type = some s → s ≠ "" →
      ("asset_type", CyVal.str s) ∈ (searchCall c l).2) ∧
    (∀ c l q, c.min_amount = some q → q ≠ 0 →
      ("min_amount", CyVal.num q) ∈ (searchCall c l).2) := by
  refine ⟨fun _ _ _ _ => rfl, fun n l => ⟨by simp [alertsForTraderCall],
    by simp [alertsForTraderCall]⟩, fun _ _ => rfl,
    fun i => by simp [alertWorkflowCall], fun _ _ _ _ => rfl,
    fun t l => ⟨by simp [alertsByTypeCall], by simp [alertsByTypeCall]⟩,
    fun _ _ _ _ => rfl, fun n d => ⟨by simp [traderNetworkCall],
    by simp [traderNetworkCall]⟩, ?_, ?_, ?_, ?_, ?_, ?_, ?_⟩
  · intro c c' l l' h
    obtain ⟨h1, h2, h3, h4, h5⟩ := h
    simp only [searchCall, searchQuery, searchWhereClause,
      searchWhereClauses, h1, h2, h3, h4, h5]
  · intro c l
    simp [searchCall, searchParams]
  · intro c l s hs hne
    simp [searchCall, searchParams, hs, hne]
  · intro c l s hs hne
    simp [searchCall, searchParams, hs, hne]
  · intro c l s hs hne
    simp [searchCall, searchParams, hs, hne]
  · intro c l s hs hne
    simp [searchCall, searchParams, hs, hne]
  · intro c l q hq hne
    simp [searchCall, searchParams, hq, hne]

/-- C2, witness: the amended theorem applied at concrete inputs — the
search text is value-independent across same-shape criteria, and a
supplied venue appears among the bound parameters. -/
theorem C2_bound_parameters_witness :
    (searchCall ⟨some "2024-01-01", none, some "XNYS", none, none⟩ 20).1 =
      (searchCall ⟨some "2024-02-02", none, some "XNAS", none, none⟩ 5).1 ∧
    ("venue", CyVal.str "XNYS") ∈
      (searchCall ⟨some "2024-01-01", none, some "XNYS", none, none⟩ 20).2 := by
  obtain ⟨-, -, -, -, -, -, -, -, h9, -, -, -, h13, -, -⟩ :=
    C2_bound_parameters_amended
  exact ⟨h9 _ _ 20 5 ⟨rfl, rfl, rfl, rfl, rfl⟩, h13 _ 20 "XNYS" rfl (by decide)⟩

/-! ### Claims C3, C4, C5: graph query result contracts -/

/-- A one-alert store used to instantiate the hypotheses of the graph
query theorems. -/
def storeOne : Store :=
  ⟨["T"], [⟨"A1", "spoofing", 5, "open"⟩], [("T", "A1")], [], [], []⟩

/-- C3: for every alert identifier absent from the store,
`get_alert_workflow` returns the structured payload
`{"error": "Alert <id> not found"}` exactly — a payload, not a raised
exception. -/
theorem C3_alert_not_found (store : Store) (alert_id : String)
    (habsent : ∀ a ∈ store.alerts, a.alert_id ≠ alert_id) :
    getAlertWorkflow store alert_id =
      .error ("Alert " ++ alert_id ++ " not found") := by
  have hfilter :
      store.alerts.filter (fun a => a.alert_id = alert_id) = [] := by
    rw [List.filter_eq_nil_iff]
    intro a ha
    simp [habsent a ha]
  unfold getAlertWorkflow
  simp [hfilter]

/-- C3, witness: the not-found payload at a concrete store and a concrete
absent identifier. -/
theorem C3_alert_not_found_witness :
    getAlertWorkflow storeOne "A2" = .error "Alert A2 not found" :=
  C3_alert_not_found storeOne "A2" (by decide)

/-- C4: for every trader name absent from the store,
`get_alerts_for_trader` returns `total_alerts = 0` and an empty alert
sequence (the function is total — no error branch exists). -/
theorem C4_unknown_trader (store : Store) (trader_name : String)
    (limit : Nat) (h : trader_name ∉ store.traders) :
    getAlertsForTrader store trader_name limit = ⟨trader_name, 0, []⟩ := by
  have hfilter : store.alerts.filter (fun a =>
      decide (trader_name ∈ store.traders) &&
        decide ((trader_name, a.alert_id) ∈ store.involved_in)) = [] := by
    rw [List.filter_eq_nil_iff]
    intro a _
    simp [h]
  unfold getAlertsForTrader
  simp [hfilter, insSort]

/-- C4, witness: the empty result at a concrete store and a concrete
unknown trader. -/
theorem C4_unknown_trader_witness :
    getAlertsForTrader storeOne "U" 10 = ⟨"U", 0, []⟩ :=
  C4_unknown_trader storeOne "U" 10 (by decide)

theorem alertRowDesc_total (a b : AlertRow) :
    alertRowDesc a b = true ∨ alertRowDesc b a = true := by
  simp only [alertRowDesc, decide_eq_true_eq]
  exact Nat.le_total b.created_date a.created_date

theorem alertRowDesc_trans (a b c : AlertRow) :
    alertRowDesc a b = true → alertRowDesc b c = true →
      alertRowDesc a c = true := by
  simp only [alertRowDesc, decide_eq_true_eq]
  intro hab hbc
  exact Nat.le_trans hbc hab

theorem pairwise_take_insSortDesc (rows : List AlertRow) (limit : Nat) :
    ((insSort alertRowDesc rows).take limit).Pairwise
      (fun r s => s.created_date ≤ r.created_date) := by
  have hp := pairwise_insSort alertRowDesc alertRowDesc_total
    alertRowDesc_trans rows
  have hsub := List.take_sublist limit (insSort alertRowDesc rows)
  exact (hp.sublist hsub).imp (fun h => by
    simpa [alertRowDesc] using h)

/-- C5: for every trader name and limit, `get_alerts_for_trader` returns
at most `limit` records, ordered by creation date descending (ties
unspecified). -/
theorem C5_limit_and_order (store : Store) (trader_name : String)
    (limit : Nat) :
    (getAlertsForTrader store trader_name limit).alerts.length ≤ limit ∧
    (getAlertsForTrader store trader_name limit).alerts.Pairwise
      (fun r s => s.created_date ≤ r.created_date) := by
  unfold getAlertsForTrader
  constructor
  · exact List.length_take_le _ _
  · exact pairwise_take_insSortDesc _ limit

/-! ### Claim C6: the trader network traversal -/

/-- Every matched path of `-[:TRADES_WITH*1..d]-` has between 1 and `d`
relationships. -/
theorem pathsUpTo_length_bounds (rels : List TradesWith) :
    ∀ (d : Nat) (x : String) (used : List Nat)
      (pz : List TradesWith × String),
      pz ∈ pathsUpTo rels x used d →
      1 ≤ pz.1.length ∧ pz.1.length ≤ d := by
  intro d
  induction d with
  | zero => intro x used pz h; simp [pathsUpTo] at h
  | succ d ih =>
      intro x used pz h
      simp only [pathsUpTo, List.mem_flatMap] at h
      obtain ⟨ry, _, hmem⟩ := h
      rcases List.mem_cons.mp hmem with rfl | htail
      · simp
      · obtain ⟨pz', hpz', rfl⟩ := List.mem_map.mp htail
        have := ih ry.2 (ry.1.rel_id :: used) pz' hpz'
        simp only [List.length_cons]
        omega

/-- A store with two parallel `TRADES_WITH` relationships between the same
two traders, carrying different properties. -/
def parallelStore : Store :=
  ⟨["A", "B"], [], [], [], [],
    [⟨0, "A", "B", [("k", "1")]⟩, ⟨1, "A", "B", [("k", "2")]⟩]⟩

/-- C6, counterexample.  `RETURN DISTINCT` deduplicates whole result rows,
not trader names: on `parallelStore`, `get_trader_network("A", depth=2)`
returns the reachable trader `"B"` twice (two distinct one-hop rows) and
returns the central trader `"A"` itself (a two-hop cycle over the two
parallel relationships), falsifying both the at-most-once clause and the
never-central clause. -/
theorem C6_network_counterexample :
    ((getTraderNetwork parallelStore "A" 2).connected_traders.filter
      (fun r => r.connected_trader = "B")).length = 2 ∧
    ((getTraderNetwork parallelStore "A" 2).connected_traders.any
      (fun r => r.connected_trader = "A")) = true := by
  refine ⟨by decide, by decide⟩

/-- C6, amended: `get_trader_network(trader_name, depth=2)` returns
row-distinct results (a reachable trader may appear in several rows, and
the central trader may itself appear via a relationship cycle), and every
returned row's hop count lies between 1 and 2 — so no returned trader has
minimum hop count exceeding 2. -/
theorem C6_network_amended (store : Store) (trader_name : String) :
    (getTraderNetwork store trader_name 2).connected_traders.Nodup ∧
    ∀ row ∈ (getTraderNetwork store trader_name 2).connected_traders,
      1 ≤ row.degrees_of_separation ∧ row.degrees_of_separation ≤ 2 := by
  constructor
  · exact ((perm_insSort networkRowLe _).nodup_iff).mpr
      (List.nodup_dedup _)
  · intro row hrow
    rw [getTraderNetwork] at hrow
    simp only [mem_insSort, List.mem_dedup, List.mem_filterMap] at hrow
    obtain ⟨pz, hpz, hrender⟩ := hrow
    by_cases hc : trader_name ∈ store.traders
    · rw [if_pos hc] at hpz
      have hb := pathsUpTo_length_bounds store.trades_with 2
        trader_name [] pz hpz
      by_cases ht : pz.2 ∈ store.traders
      · rw [if_pos ht] at hrender
        cases Option.some.inj hrender
        simpa using hb
      · rw [if_neg ht] at hrender
        cases hrender
    · rw [if_neg hc] at hpz
      simp at hpz

/-- C6, witness: the amended theorem applied at `parallelStore` — the
result rows are distinct, and the concrete row for trader `"B"` at one hop
satisfies the hop-count bounds. -/
theorem C6_network_witness :
    (getTraderNetwork parallelStore "A" 2).connected_traders.Nodup ∧
    (1 ≤ (NetworkRow.mk "B" 1
        [("TRADES_WITH", [("k", "1")])]).degrees_of_separation ∧
      (NetworkRow.mk "B" 1
        [("TRADES_WITH", [("k", "1")])]).degrees_of_separation ≤ 2) :=
  ⟨(C6_network_amended parallelStore "A").1,
    (C6_network_amended parallelStore "A").2
      (NetworkRow.mk "B" 1 [("TRADES_WITH", [("k", "1")])]) (by decide)⟩

/-! ### Claim C7: REST Data Service response handling -/

/-- C7, counterexample.  `submit_alert_feedback` does not return the
upstream JSON body unchanged on success: a 200 response with body
`{"x": 1}` yields the fixed success payload instead.  And the success test
is `status == 200`, not 2xx: a 201 response to `get_real_time_alerts`
yields an error payload, not the body. -/
theorem C7_rest_counterexample :
    submitAlertFeedbackResult 200 (Json.obj [("x", Json.int 1)]) ≠
      Json.obj [("x", Json.int 1)] ∧
    getRealTimeAlertsResult 201 (Json.arr []) =
      Json.obj [("error", Json.str "API error: 201")] := by
  constructor
  · intro h
    rw [submitAlertFeedbackResult] at h
    simp at h
  · rfl

/-- C7, amended: the three read operations return the upstream JSON body
unchanged exactly when the HTTP status is 200 (so non-200 members of the
2xx class also map to error payloads); `submit_alert_feedback` returns the
fixed `{"success": true, "message": "Feedback submitted"}` payload on 200;
every operation returns a payload with an `error` field on any non-200
status. -/
theorem C7_rest_amended (status : Nat) (body : Json) (trader_id : String) :
    (status = 200 →
      getRealTimeAlertsResult status body = body ∧
      getTraderProfileResult trader_id status body = body ∧
      getMarketDataResult status body = body ∧
      submitAlertFeedbackResult status body =
        Json.obj [("success", Json.bool true),
                  ("message", Json.str "Feedback submitted")]) ∧
    (status ≠ 200 →
      hasErrorField (getRealTimeAlertsResult status body) = true ∧
      hasErrorField (getTraderProfileResult trader_id status body) = true ∧
      hasErrorField (getMarketDataResult status body) = true ∧
      hasErrorField (submitAlertFeedbackResult status body) = true) := by
  constructor
  · intro h
    subst h
    exact ⟨rfl, rfl, rfl, rfl⟩
  · intro h
    simp [getRealTimeAlertsResult, getTraderProfileResult,
      getMarketDataResult, submitAlertFeedbackResult, hasErrorField, h]

/-- C7, witness: the amended theorem applied at a 200 response (body
passed through) and at a 404 response (error-field payload). -/
theorem C7_rest_witness :
    getRealTimeAlertsResult 200 (Json.int 3) = Json.int 3 ∧
    hasErrorField (getMarketDataResult 404 Json.null) = true :=
  ⟨((C7_rest_amended 200 (Json.int 3) "t").1 rfl).1,
    ((C7_rest_amended 404 Json.null "t").2 (by decide)).2.2.1⟩

/-! ### Claim C8: the HTTP RPC client's call_tool -/

/-- C8: `FastMCPClient.call_tool` maps a transport exception and a non-200
response each to a single-field `{"error": <message>}` dictionary, and on
a 200 response whose `result` sequence is non-empty it returns that
sequence's first element. -/
theorem C8_call_tool (e : String) (status : Nat)
    (r : Option (List Json)) (x : Json) (xs : List Json) :
    callToolResult (.exn e) =
      Json.obj [("error", Json.str ("Connection error: " ++ e))] ∧
    (status ≠ 200 → callToolResult (.resp status r) =
      Json.obj [("error", Json.str ("HTTP error: " ++ toString status))]) ∧
    callToolResult (.resp 200 (some (x :: xs))) = x := by
  refine ⟨rfl, ?_, rfl⟩
  intro h
  simp [callToolResult, h]

/-- C8, witness: the theorem applied at a concrete exception message, a
concrete 500 response and a concrete 200 payload. -/
theorem C8_call_tool_witness :
    callToolResult (.exn "refused") =
      Json.obj [("error", Json.str "Connection error: refused")] ∧
    callToolResult (.resp 500 none) =
      Json.obj [("error", Json.str "HTTP error: 500")] ∧
    callToolResult (.resp 200 (some [Json.int 7])) = Json.int 7 :=
  ⟨(C8_call_tool "refused" 500 none (Json.int 7) []).1,
    (C8_call_tool "refused" 500 none (Json.int 7) []).2.1 (by decide),
    (C8_call_tool "refused" 500 none (Json.int 7) []).2.2⟩

/-! ### Claim C9: pipeline fault handling in process_query -/

/-- C9, counterexample.  The caught-exception dictionary does not contain
ONLY an `error` field and a single insight: it also carries the original
query under the `"query"` key — its key list is exactly
`["error", "query", "insights"]`. -/
theorem C9_process_query_counterexample :
    processQuery (fun _ _ => .error "boom") (fun _ => ())
        (fun _ => "") "sample query" =
      .err [("error", .s "Error processing query: boom"),
            ("query", .s "sample query"),
            ("insights", .list ["Failed to process query: boom"])] ∧
    [("error", PyVal.s "Error processing query: boom"),
     ("query", PyVal.s "sample query"),
     ("insights", PyVal.list ["Failed to process query: boom"])].map
        Prod.fst = ["error", "query", "insights"] := by
  exact ⟨rfl, rfl⟩

/-- C9, amended: a fault raised by any pipeline stage aborts the run
(later stages never execute under `Except` sequencing), and
`process_query` catches it and returns a structured dictionary holding an
`error` field describing the failure, the original query, and a single
synthetic insight describing the failure. -/
theorem C9_process_query_amended (α : Type)
    (llm : String → String → Except String String)
    (answer : ToolCall → α) (dump : List (String × α) → String)
    (q e : String) (h : runGraph llm answer dump q = .error e) :
    processQuery llm answer dump q =
      .err [("error", .s ("Error processing query: " ++ e)),
            ("query", .s q),
            ("insights", .list ["Failed to process query: " ++ e])] := by
  unfold processQuery
  rw [h]

/-- C9, witness: the amended theorem applied to a pipeline whose first LLM
call raises. -/
theorem C9_process_query_witness :
    processQuery (fun _ _ => .error "x") (fun _ => ())
        (fun _ => "") "q" =
      .err [("error", .s "Error processing query: x"),
            ("query", .s "q"),
            ("insights", .list ["Failed to process query: x"])] :=
  C9_process_query_amended Unit (fun _ _ => .error "x") (fun _ => ())
    (fun _ => "") "q" "x" rfl

end Surveillance
